import Mathlib

/-!
# Diagnostic Consensus & Orthotic Recommendation Engine — verification

Shallow embedding of the core of the foot-scan diagnosis pipeline:

* `processor/foot_models/arch_model.py` — the weighted ensemble classifier
  (`_determine_overall_arch_type`) and the agreement-based confidence boost
  (`_boost_confidence_with_agreement_analysis`);
* `processor/foot_models/base_model.py` — the model-result normalizer
  (`BaseFootModel.analyze`, `_validate_inputs`, `_create_error_response`);
* `processor/ai_diagnosis.py` — the cross-model diagnosis aggregation
  (`FootDiagnosisModel.analyze_foot_images`, `_map_arch_type_to_pdf_terminology`,
  `_determine_arch_degree`, `_determine_zone_alignment`);
* `processor/diagnosis_rules.py` — the recommendation rule engine
  (`apply_medical_rules` and its inner `add_recommendation`).

Python floats are modelled as rationals (all constants involved are short
decimals and no float-rounding boundary is exercised by the statements below);
Python dicts are modelled as association lists with first-match lookup and
in-place update; optional dict fields are modelled with `Option`.
-/

namespace FootScan

/-! ## String helpers (Python `str.lower` and the `in` substring test) -/

/-- Python `str.lower()` restricted to the ASCII data that flows through the
engine (`Char.toLower` agrees with Python on ASCII). -/
def strLower (s : String) : String :=
  String.mk (s.data.map Char.toLower)

/-- Whether `n` occurs as a contiguous run inside `h` (Python `n in h` on
strings), on the character lists. -/
def listHasRun (n : List Char) : List Char → Bool
  | [] => n.isEmpty
  | c :: cs => n.isPrefixOf (c :: cs) || listHasRun n cs

/-- Python substring test `n in h`. -/
def strHas (n h : String) : Bool :=
  listHasRun n.data h.data

/-- First-match lookup in an association list (Python `dict.get`). -/
def alistGet {α : Type} (l : List (String × α)) (k : String) : Option α :=
  match l with
  | [] => none
  | (k', v) :: t => if k' = k then some v else alistGet t k

/-- In-place update of an association list: replace the value at the first
occurrence of `k`, or append a fresh entry (Python `d[k] = v`, which keeps the
insertion position of an existing key). -/
def alistSet {α : Type} (l : List (String × α)) (k : String) (v : α) :
    List (String × α) :=
  match l with
  | [] => [(k, v)]
  | (k', v') :: t => if k' = k then (k', v) :: t else (k', v') :: alistSet t k v

/-! ## Recommendation rule engine state (`diagnosis_rules.apply_medical_rules`) -/

/-- The two recommendation categories used by every call site of
`add_recommendation` (the Python code indexes the `recommendations` dict with
the literal strings `"intrinsic"` / `"extrinsic"`). -/
inductive Cat where
  | intrinsic
  | extrinsic
deriving DecidableEq, Repr

/-- The mutable `recommendations` dict of `apply_medical_rules` (minus the
`flags` key, which is threaded separately because it is written by plain
assignments, never read by `add_recommendation`). -/
structure RecState where
  intrinsic : List String
  extrinsic : List String
  scores : List (String × ℚ)
  primaryRecs : List String
  secondaryRecs : List String
  combined : List String
deriving DecidableEq, Repr

/-- The initial `recommendations` structure. -/
def emptyRec : RecState :=
  ⟨[], [], [], [], [], []⟩

/-- The category list selected by `recommendations[category]`. -/
def RecState.catList (s : RecState) : Cat → List String
  | Cat.intrinsic => s.intrinsic
  | Cat.extrinsic => s.extrinsic

/-- `add_recommendation(rec_name, category, confidence, primary)` from
`diagnosis_rules.py` (the `justification` argument is unused by the code and
omitted): a no-op when the name is already in the chosen category's list;
otherwise it appends to that list, assigns `confidence_scores[name]`, appends
to `combined_list`, and appends to the primary or secondary list unless the
name is already there. -/
def addRec (s : RecState) (name : String) (cat : Cat) (conf : ℚ)
    (primary : Bool) : RecState :=
  if name ∈ s.catList cat then s
  else
    { intrinsic := if cat = Cat.intrinsic then s.intrinsic ++ [name] else s.intrinsic
      extrinsic := if cat = Cat.extrinsic then s.extrinsic ++ [name] else s.extrinsic
      scores := alistSet s.scores name conf
      primaryRecs :=
        if primary then
          if name ∈ s.primaryRecs then s.primaryRecs else s.primaryRecs ++ [name]
        else s.primaryRecs
      secondaryRecs :=
        if primary then s.secondaryRecs
        else if name ∈ s.secondaryRecs then s.secondaryRecs
        else s.secondaryRecs ++ [name]
      combined := s.combined ++ [name] }

/-- One pending `add_recommendation` call. -/
structure AddReq where
  name : String
  cat : Cat
  conf : ℚ
  primary : Bool
deriving DecidableEq, Repr

/-- Run a block of `add_recommendation` calls in order. -/
def addAll (s : RecState) (reqs : List AddReq) : RecState :=
  reqs.foldl (fun s r => addRec s r.name r.cat r.conf r.primary) s

/-- The fields of the caller-supplied `patient_context` dict that
`apply_medical_rules` actually reads (`age`, `weight`, `activity_level` and
`previous_orthotics` are copied into the dead local `patient_factors` and never
used).  A `none` context models Python `patient_context is None` (an empty dict,
which is also falsy in Python, behaves the same way). -/
structure PatientContext where
  medicalHistory : List String
  previousFootPain : Bool
  legLengthDiscrepancy : Bool
  ulcerHistory : Bool
deriving DecidableEq, Repr

/-- The three-zone `alignment` dict argument of `apply_medical_rules`; the
rules only compare each zone against the literals `"valgus"`/`"varus"`, so any
other string behaves like a missing key. -/
structure Alignment where
  forefoot : String
  midfoot : String
  hindfoot : String
deriving DecidableEq, Repr

/-- Arch-type / arch-degree block of `apply_medical_rules` (the
`add_recommendation` calls it performs, in source order). -/
def archTypeReqs (archType : String) (archDegree : ℤ)
    (ctx : Option PatientContext) : List AddReq :=
  if archType = "Normal Arch" then
    match ctx with
    | some c =>
        if c.previousFootPain then
          [⟨"AS (Arch Support)", Cat.intrinsic, 70/100, false⟩]
        else []
    | none => []
  else if archType = "Flat Arch" then
    if archDegree = 1 then
      [⟨"AS (Arch Support)", Cat.intrinsic, 75/100, true⟩]
    else if archDegree = 2 then
      [⟨"AS (Arch Support)", Cat.intrinsic, 85/100, true⟩,
       ⟨"MAS (Medial Arch Support)", Cat.intrinsic, 80/100, true⟩]
    else if archDegree = 3 then
      [⟨"MAS (Medial Arch Support)", Cat.intrinsic, 90/100, true⟩,
       ⟨"NAS (Navicular Arch Support)", Cat.intrinsic, 85/100, true⟩]
    else if archDegree = 4 then
      [⟨"MAS (Medial Arch Support)", Cat.intrinsic, 95/100, true⟩,
       ⟨"NAS (Navicular Arch Support)", Cat.intrinsic, 95/100, true⟩]
    else []
  else if archType = "High Arch" then
    (if 2 ≤ archDegree then
      [⟨"Soft Cushioning", Cat.intrinsic, 80/100, true⟩]
     else []) ++
    (if 3 ≤ archDegree then
      [⟨"Heel Cushion Pad", Cat.intrinsic, 85/100, true⟩,
       ⟨"Metatarsal Pad", Cat.intrinsic, 80/100, false⟩]
     else [])
  else []

/-- Alignment block of `apply_medical_rules` (forefoot, then midfoot, then
hindfoot); the wedge confidence is `0.75 + 0.05 * arch_degree`. -/
def alignmentReqs (archType : String) (archDegree : ℤ)
    (alignment : Alignment) : List AddReq :=
  let confVal : ℚ := 75/100 + 5/100 * (archDegree : ℚ)
  (if alignment.forefoot = "valgus" then
    [⟨"Anterior Medial Wedge", Cat.extrinsic, confVal, true⟩] ++
    (if 3 ≤ archDegree then
      [⟨"SAW (Supinator Anterior Wedge)", Cat.extrinsic, 85/100,
        decide (3 ≤ archDegree)⟩]
     else [])
   else if alignment.forefoot = "varus" then
    [⟨"Anterior Lateral Wedge", Cat.extrinsic, confVal, true⟩] ++
    (if 3 ≤ archDegree then
      [⟨"PAW (Pronator Anterior Wedge)", Cat.extrinsic, 85/100,
        decide (3 ≤ archDegree)⟩]
     else [])
   else []) ++
  (if alignment.midfoot = "valgus" then
    [⟨"MAS (Medial Arch Support)", Cat.intrinsic, confVal, true⟩] ++
    (if 2 ≤ archDegree then
      [⟨"NAS (Navicular Arch Support)", Cat.intrinsic, 85/100, true⟩]
     else [])
   else if alignment.midfoot = "varus" then
    (if strHas "High Arch" archType then
      [⟨"AS (Arch Support)", Cat.intrinsic, 75/100, true⟩]
     else [])
   else []) ++
  (if alignment.hindfoot = "valgus" then
    [⟨"Posterior Medial Wedge", Cat.extrinsic, confVal, true⟩] ++
    (if 3 ≤ archDegree then
      [⟨"SPW (Supinator Posterior Wedge)", Cat.extrinsic, 85/100, true⟩]
     else [])
   else if alignment.hindfoot = "varus" then
    [⟨"Posterior Lateral Wedge", Cat.extrinsic, confVal, true⟩] ++
    (if 3 ≤ archDegree then
      [⟨"PPW (Pronator Posterior Wedge)", Cat.extrinsic, 85/100, true⟩]
     else [])
   else [])

/-- The static `pathology_map` table of `diagnosis_rules.py` (ordered add-ons
per pathology, in source order). -/
def pathologyMap : List (String × List AddReq) :=
  [("Claw Toe",
    [⟨"Toe Crest", Cat.intrinsic, 85/100, true⟩,
     ⟨"Cushioning", Cat.intrinsic, 80/100, false⟩]),
   ("Hammer Toe",
    [⟨"Toe Crest", Cat.intrinsic, 85/100, true⟩,
     ⟨"Toe Loop", Cat.extrinsic, 75/100, false⟩]),
   ("Mallet Toe",
    [⟨"Toe Crest", Cat.intrinsic, 80/100, true⟩]),
   ("Tennis Toe",
    [⟨"Toe part Cushioning", Cat.intrinsic, 75/100, true⟩]),
   ("Skiers Toe",
    [⟨"Toe part Cushioning", Cat.intrinsic, 75/100, true⟩]),
   ("Turf Toe",
    [⟨"MP", Cat.intrinsic, 85/100, true⟩,
     ⟨"MPL", Cat.intrinsic, 80/100, false⟩,
     ⟨"Morton\x27s Extension", Cat.extrinsic, 90/100, true⟩]),
   ("Hallux Valgus",
    [⟨"AS", Cat.intrinsic, 70/100, false⟩,
     ⟨"Anterior Medial Wedge", Cat.extrinsic, 85/100, true⟩,
     ⟨"Hallux Separator", Cat.intrinsic, 80/100, true⟩]),
   ("Hallux Rigidus",
    [⟨"Morton\x27s to toe Extension (Stiff plate)", Cat.extrinsic, 95/100, true⟩,
     ⟨"Kinetic Wedge", Cat.extrinsic, 85/100, true⟩]),
   ("Hallux Limitus",
    [⟨"Morton\x27s Extension", Cat.extrinsic, 90/100, true⟩,
     ⟨"Rocker Sole", Cat.extrinsic, 85/100, false⟩]),
   ("Metatarsalgia",
    [⟨"MP", Cat.intrinsic, 90/100, true⟩,
     ⟨"MPL", Cat.intrinsic, 85/100, true⟩,
     ⟨"Metatarsal Bar", Cat.extrinsic, 80/100, false⟩]),
   ("Bunion Pain",
    [⟨"AS", Cat.intrinsic, 70/100, false⟩,
     ⟨"Anterior Medial Wedge", Cat.extrinsic, 85/100, true⟩,
     ⟨"Bunion Shield", Cat.intrinsic, 90/100, true⟩]),
   ("Bunionette",
    [⟨"5th Met Head Relief", Cat.intrinsic, 90/100, true⟩,
     ⟨"Lateral Forefoot Spacer", Cat.intrinsic, 85/100, false⟩]),
   ("Morton Neuroma",
    [⟨"MP", Cat.intrinsic, 90/100, true⟩,
     ⟨"MPL", Cat.intrinsic, 85/100, true⟩,
     ⟨"Metatarsal Bar", Cat.extrinsic, 80/100, false⟩,
     ⟨"Neuroma Pad", Cat.intrinsic, 95/100, true⟩]),
   ("Sesamoiditis",
    [⟨"Sesamoid Relief Pad", Cat.intrinsic, 95/100, true⟩,
     ⟨"1st Met Head Off-loading", Cat.intrinsic, 90/100, true⟩]),
   ("Midfoot Arthritis",
    [⟨"AS", Cat.intrinsic, 85/100, true⟩,
     ⟨"Fascia Groove", Cat.intrinsic, 80/100, false⟩,
     ⟨"Carbon Plate", Cat.intrinsic, 90/100, true⟩]),
   ("Arch Pain",
    [⟨"AS", Cat.intrinsic, 90/100, true⟩,
     ⟨"Arch Cushioning", Cat.intrinsic, 85/100, false⟩]),
   ("Kohler\x27s disease",
    [⟨"NAS", Cat.intrinsic, 95/100, true⟩,
     ⟨"Navicular Off-loading", Cat.intrinsic, 90/100, true⟩]),
   ("Peroneal Tendon Enteropathy",
    [⟨"Posterior Lateral Wedge", Cat.extrinsic, 85/100, true⟩,
     ⟨"Lateral Border Support", Cat.intrinsic, 80/100, false⟩]),
   ("Cuboid Syndrome",
    [⟨"Valgus cuboid pad", Cat.intrinsic, 90/100, true⟩,
     ⟨"Cuboid Off-Load", Cat.intrinsic, 90/100, true⟩,
     ⟨"Lateral Midfoot Support", Cat.intrinsic, 80/100, false⟩]),
   ("Accessory Navicular",
    [⟨"NAS", Cat.intrinsic, 90/100, true⟩,
     ⟨"Posterior Medial Wedge", Cat.extrinsic, 85/100, true⟩,
     ⟨"Navicular Relief Cut-out", Cat.intrinsic, 95/100, true⟩]),
   ("Navicular Pain",
    [⟨"NAS", Cat.intrinsic, 85/100, true⟩,
     ⟨"Posterior Medial Wedge", Cat.extrinsic, 80/100, false⟩,
     ⟨"Navicular Off-loading", Cat.intrinsic, 90/100, true⟩]),
   ("Lisfranc Injury",
    [⟨"Carbon Plate", Cat.intrinsic, 95/100, true⟩,
     ⟨"AS", Cat.intrinsic, 85/100, true⟩,
     ⟨"Rigid Midfoot Support", Cat.intrinsic, 90/100, true⟩]),
   ("Plantar Fasciitis",
    [⟨"Heel Cushion Pad", Cat.intrinsic, 90/100, true⟩,
     ⟨"Fascia Groove", Cat.intrinsic, 85/100, true⟩,
     ⟨"Calcaneal Spur Accommodation", Cat.intrinsic, 80/100, false⟩]),
   ("Heel Spur",
    [⟨"Heel Spur Pad", Cat.intrinsic, 95/100, true⟩,
     ⟨"Calcaneal Spur Accommodation", Cat.intrinsic, 90/100, true⟩]),
   ("Posterior Tibialis Tendinitis",
    [⟨"AS", Cat.intrinsic, 85/100, true⟩,
     ⟨"MAS", Cat.intrinsic, 90/100, true⟩,
     ⟨"Medial Heel Wedge", Cat.extrinsic, 85/100, true⟩]),
   ("Tarsal Tunnel Syndrome",
    [⟨"AS", Cat.intrinsic, 80/100, false⟩,
     ⟨"Heel Lift Pad", Cat.intrinsic, 85/100, true⟩,
     ⟨"Medial Arch Relief", Cat.intrinsic, 90/100, true⟩]),
   ("Calcaneus Fx",
    [⟨"Heel Lift Pad", Cat.intrinsic, 95/100, true⟩,
     ⟨"Total Contact Orthotic", Cat.intrinsic, 90/100, true⟩]),
   ("Heel Fat Pad Atrophy",
    [⟨"Heel Cushion Pad", Cat.intrinsic, 95/100, true⟩,
     ⟨"Shock Absorbing Heel", Cat.extrinsic, 90/100, true⟩]),
   ("Achilles Tendinitis",
    [⟨"Heel Cushion Pad", Cat.intrinsic, 85/100, true⟩,
     ⟨"Heel Lift Pad", Cat.intrinsic, 90/100, true⟩,
     ⟨"Achilles Notch", Cat.extrinsic, 80/100, false⟩]),
   ("Haglund\x27s Deformity",
    [⟨"Heel Lift Pad", Cat.intrinsic, 85/100, true⟩,
     ⟨"Achilles Notch", Cat.extrinsic, 95/100, true⟩,
     ⟨"Heel Cup", Cat.intrinsic, 90/100, true⟩]),
   ("Sever\x27s Disease",
    [⟨"Heel Lift Pad", Cat.intrinsic, 90/100, true⟩,
     ⟨"Heel Cushion Pad", Cat.intrinsic, 90/100, true⟩,
     ⟨"Achilles Notch", Cat.extrinsic, 85/100, false⟩])]

/-- Pathology block: for each detected pathology in the order given, apply the
`pathology_map` add-ons (`.get(condition, [])`). -/
def pathologyReqs (pathologies : List String) : List AddReq :=
  pathologies.flatMap (fun c => (alistGet pathologyMap c).getD [])

/-- The static `other_conditions_map` table. -/
def otherConditionsMap : List (String × List AddReq) :=
  [("Abnormal peak pressure",
    [⟨"Soft Cushioning", Cat.intrinsic, 85/100, true⟩,
     ⟨"Pressure Relief Pad", Cat.intrinsic, 90/100, true⟩]),
   ("Callus and Pain Point",
    [⟨"Soft Cushioning", Cat.intrinsic, 85/100, true⟩,
     ⟨"Off-Loading", Cat.intrinsic, 90/100, true⟩,
     ⟨"Pressure Relief Pad", Cat.intrinsic, 90/100, true⟩]),
   ("Ulcer",
    [⟨"Off-Loading", Cat.intrinsic, 95/100, true⟩,
     ⟨"Total Contact Orthotic", Cat.intrinsic, 90/100, true⟩,
     ⟨"Ulcer Relief Aperture", Cat.intrinsic, 95/100, true⟩]),
   ("Toe/Foot Part Amputation",
    [⟨"Toe filler", Cat.intrinsic, 95/100, true⟩,
     ⟨"Amputation Accommodation", Cat.intrinsic, 95/100, true⟩,
     ⟨"Rocker Sole", Cat.extrinsic, 90/100, true⟩]),
   ("Leg Length Discrepancy",
    [⟨"Heel Height Pad", Cat.extrinsic, 95/100, true⟩,
     ⟨"Full Length Lift", Cat.extrinsic, 90/100, false⟩]),
   ("Charcot Foot",
    [⟨"Total Contact Orthotic", Cat.intrinsic, 95/100, true⟩,
     ⟨"Rocker Sole", Cat.extrinsic, 90/100, true⟩,
     ⟨"Pressure Distribution Insole", Cat.intrinsic, 90/100, true⟩]),
   ("Diabetes with Neuropathy",
    [⟨"Total Contact Orthotic", Cat.intrinsic, 95/100, true⟩,
     ⟨"Soft Cushioning", Cat.intrinsic, 90/100, true⟩,
     ⟨"Pressure Redistribution", Cat.intrinsic, 95/100, true⟩])]

/-- The lower-cased medical history (`[x.lower() for x in medical_history]`);
Python's `"diabetes" in [...]` is exact list membership, not substring. -/
def loweredHistory (ctx : Option PatientContext) : List String :=
  match ctx with
  | some c => c.medicalHistory.map strLower
  | none => []

/-- Which of the seven `other_conditions` are detected (mirrors the
`other_conditions` dict updates of `apply_medical_rules`). -/
def otherConditionOn (archDegree : ℤ) (pathologies : List String)
    (ctx : Option PatientContext) (condition : String) : Bool :=
  let hist := loweredHistory ctx
  if condition = "Abnormal peak pressure" then
    "Metatarsalgia" ∈ pathologies
  else if condition = "Callus and Pain Point" then
    "Plantar Fasciitis" ∈ pathologies ∧ 3 ≤ archDegree
  else if condition = "Diabetes with Neuropathy" then
    ctx.isSome ∧ "diabetes" ∈ hist ∧ "neuropathy" ∈ hist
  else if condition = "Toe/Foot Part Amputation" then
    ctx.isSome ∧ "amputation" ∈ hist
  else if condition = "Charcot Foot" then
    ctx.isSome ∧ "charcot" ∈ hist
  else if condition = "Leg Length Discrepancy" then
    match ctx with
    | some c => c.legLengthDiscrepancy
    | none => false
  else if condition = "Ulcer" then
    match ctx with
    | some c => c.ulcerHistory ∨ "ulcer" ∈ hist
    | none => false
  else false

/-- Other-conditions block: iterate the `other_conditions` dict in its
insertion order, applying `other_conditions_map` add-ons for each detected
condition. -/
def otherConditionReqs (archDegree : ℤ) (pathologies : List String)
    (ctx : Option PatientContext) : List AddReq :=
  ["Abnormal peak pressure", "Callus and Pain Point", "Ulcer",
   "Toe/Foot Part Amputation", "Leg Length Discrepancy", "Charcot Foot",
   "Diabetes with Neuropathy"].flatMap fun c =>
    if otherConditionOn archDegree pathologies ctx c then
      (alistGet otherConditionsMap c).getD []
    else []

/-- The `flags` dict produced by `apply_medical_rules` (written in source
order: `severe_pes_planus` and `severe_pes_cavus` in the arch block,
`high_risk_foot` in the patient-context block; flags are never read back by
the rules). -/
def ruleFlags (archType : String) (archDegree : ℤ)
    (ctx : Option PatientContext) : List (String × Bool) :=
  let f0 : List (String × Bool) := []
  let f1 := if archType = "Flat Arch" ∧ archDegree = 4 then
      alistSet f0 "severe_pes_planus" true else f0
  let f2 := if archType = "High Arch" ∧ archDegree = 4 then
      alistSet f1 "severe_pes_cavus" true else f1
  let hist := loweredHistory ctx
  let f3 := if ctx.isSome ∧ "diabetes" ∈ hist ∧ "neuropathy" ∈ hist then
      alistSet f2 "high_risk_foot" true else f2
  let f4 := if ctx.isSome ∧ "charcot" ∈ hist then
      alistSet f3 "high_risk_foot" true else f3
  let ulcer : Bool := match ctx with
    | some c => c.ulcerHistory || decide ("ulcer" ∈ hist)
    | none => false
  if ulcer then alistSet f4 "high_risk_foot" true else f4

/-- The result of `apply_medical_rules`: the accumulated recommendation lists
plus the `flags` dict. -/
structure RecOutput where
  recs : RecState
  flags : List (String × Bool)
deriving DecidableEq, Repr

/-- `apply_medical_rules(arch_type, arch_degree, alignment,
detected_pathologies, patient_context)`: run the arch-type block, the
alignment block, the pathology block, and the other-conditions block, in that
order, and attach the flags. -/
def applyMedicalRules (archType : String) (archDegree : ℤ)
    (alignment : Alignment) (pathologies : List String)
    (ctx : Option PatientContext) : RecOutput :=
  { recs := addAll emptyRec
      (archTypeReqs archType archDegree ctx ++
       alignmentReqs archType archDegree alignment ++
       pathologyReqs pathologies ++
       otherConditionReqs archDegree pathologies ctx)
    flags := ruleFlags archType archDegree ctx }

/-! ## Weighted ensemble classifier
(`arch_model._determine_overall_arch_type` and
`arch_model._boost_confidence_with_agreement_analysis`) -/

/-- One classification-method result as read by the ensemble: the code only
reads `result.get("classification")` and `result.get("confidence", 0.7)`. -/
structure MethodRes where
  classification : Option String
  confidence : Option ℚ
deriving DecidableEq, Repr

/-- The fixed key order of the `votes` dict literal of
`_determine_overall_arch_type`; Python's `max` over the dict items resolves
ties toward the earlier key in this order. -/
def voteCategories : List String :=
  ["flat_feet", "normal_arch", "high_arch"]

/-- Accumulated weighted vote for one category: the loop adds
`weight * confidence` for every weighted method whose classification is a
`votes` key equal to the category. -/
def voteFor (cls : List (String × MethodRes)) (weights : List (String × ℚ))
    (cat : String) : ℚ :=
  cls.foldl
    (fun acc p =>
      match alistGet weights p.1 with
      | none => acc
      | some w =>
        match p.2.classification with
        | some c => if c = cat then acc + w * p.2.confidence.getD (7/10) else acc
        | none => acc)
    0

/-- Python `max(items, key=...)`: the first entry attaining the maximum value
(later entries replace the best only when strictly greater). -/
def pickMaxQ (v : String × ℚ) (vs : List (String × ℚ)) : String × ℚ :=
  vs.foldl (fun best x => if best.2 < x.2 then x else best) v

/-- Sum of the weight-table values (`sum(weights.values())`). -/
def weightTotal (weights : List (String × ℚ)) : ℚ :=
  (weights.map Prod.snd).sum

/-- `_determine_overall_arch_type(classifications, weights)`: weighted votes
over the three fixed categories, winner by first maximum, confidence
`votes[winner] / total_weight` (or the 0.7 default when the total weight is
not positive), clamped into `[0.6, 0.95]`. -/
def determineOverallArchType (cls : List (String × MethodRes))
    (weights : List (String × ℚ)) : String × ℚ :=
  let votes := voteCategories.map (fun c => (c, voteFor cls weights c))
  let winner :=
    match votes with
    | [] => ("", 0)
    | v :: vs => pickMaxQ v vs
  let total := weightTotal weights
  let conf := if 0 < total then winner.2 / total else 7/10
  (winner.1, max (3/5) (min (19/20) conf))

/-- The static method-weight table of `ArchTypeModel` (`weights` literal in
`_analyze_implementation`). -/
def archMethodWeights : List (String × ℚ) :=
  [("arch_height_index", 25/100),
   ("medial_arch_angle", 20/100),
   ("chippaux_smirak_index", 15/100),
   ("navicular_drop", 15/100),
   ("arch_rigidity", 10/100),
   ("dynamic_arch_response", 15/100)]

/-- The raw classifications present in the method results, in iteration order
(only results carrying a `"classification"` key are counted). -/
def classifiedOf (cls : List (String × MethodRes)) : List String :=
  cls.filterMap (fun p => p.2.classification)

/-- Distinct values in first-appearance order (the key insertion order of the
`classification_counts` dict). -/
def distinctInOrder (l : List String) : List String :=
  l.foldl (fun acc x => if x ∈ acc then acc else acc ++ [x]) []

/-- Python `max(classification_counts.items(), key=...)` when the counts dict
is non-empty: the first key, in insertion order, attaining the maximal count. -/
def pickMaxN (v : String × ℕ) (vs : List (String × ℕ)) : String × ℕ :=
  vs.foldl (fun best x => if best.2 < x.2 then x else best) v

/-- The most common raw classification and its count (`most_common`), `none`
when no method result carries a classification. -/
def modeOf (cls : List (String × MethodRes)) : Option (String × ℕ) :=
  match (distinctInOrder (classifiedOf cls)).map
      (fun c => (c, (classifiedOf cls).count c)) with
  | [] => none
  | v :: vs => some (pickMaxN v vs)

/-- The agreement fraction used by the boost: count of the most common raw
classification over the number of classified results. -/
def modeAgreement (cls : List (String × MethodRes)) : ℚ :=
  match modeOf cls with
  | none => 0
  | some (_, k) => (k : ℚ) / ((classifiedOf cls).length : ℚ)

/-- `_boost_confidence_with_agreement_analysis(classification_results,
base_confidence)`: +0.10 when the most common classification has agreement
above 0.8, +0.05 above 0.6, re-clamped to at most 0.95; the base confidence is
returned untouched when no result carries a classification. -/
def boostConfidence (cls : List (String × MethodRes)) (base : ℚ) : ℚ :=
  match modeOf cls with
  | none => base
  | some (_, k) =>
    let total : ℕ := (classifiedOf cls).length
    let agreement : ℚ := (k : ℚ) / (total : ℚ)
    let boost : ℚ := if 4/5 < agreement then 1/10
      else if 3/5 < agreement then 1/20 else 0
    min (19/20) (base + boost)

/-! ## Diagnosis aggregation (`ai_diagnosis.FootDiagnosisModel`) -/

/-- Per-zone entry of the pronation model's `zone_alignment` dict (the
aggregator reads `zone_specific.get('alignment', ...)` and
`zone_specific.get('confidence', 0.5)`). -/
structure ZoneInfo where
  alignment : Option String
  zconfidence : Option ℚ
deriving DecidableEq, Repr

/-- The fields of a per-model result dict that
`FootDiagnosisModel.analyze_foot_images` reads during aggregation.  A dict
without one of these keys is modelled with `none` / `[]`. -/
structure ModelRecord where
  condition : Option String
  conditionName : Option String
  confidence : Option ℚ
  severity : Option String
  archMeasurements : List (String × ℚ)
  zoneAlignment : List (String × ZoneInfo)
  rearfootAngle : Option ℚ
deriving DecidableEq, Repr

/-- The record produced by `BaseFootModel._create_error_response`: it carries
only `error`, `model_name`, `model_version` and `success`, i.e. none of the
fields the aggregator reads, so it behaves like an empty dict everywhere
below. -/
def errorRecord : ModelRecord :=
  ⟨none, none, none, none, [], [], none⟩

/-- `_map_arch_type_to_pdf_terminology`: the `mapping` dict lookup with the
default `"Normal Arch"` for unmapped codes. -/
def mapArchTypeToPdf (archType : String) : String :=
  let k := strLower archType
  if k = "high_arch" then "High Arch"
  else if k = "flat_feet" then "Flat Arch"
  else if k = "normal_arch" then "Normal Arch"
  else if k = "flatfoot" then "Flat Arch"
  else if k = "high arch" then "High Arch"
  else if k = "normal foot structure" then "Normal Arch"
  else "Normal Arch"

/-- The severity fallback table of `_determine_arch_degree`
(`severity_map.get(severity, 1)`). -/
def severityMapD (severity : String) : ℤ :=
  if severity = "none" then 1
  else if severity = "mild" then 2
  else if severity = "moderate" then 3
  else if severity = "severe" then 4
  else 1

/-- `_determine_arch_degree(arch_result)`: degree 1 for conditions containing
"normal"; threshold table on `arch_height_index` (defaulting to 0.25 when the
measurement is absent) for flat and high conditions; otherwise the severity
fallback table. -/
def determineArchDegree (r : ModelRecord) : ℤ :=
  let condition := strLower (r.condition.getD "normal_arch")
  let severity := r.severity.getD "none"
  let ahi := (alistGet r.archMeasurements "arch_height_index").getD (25/100)
  if strHas "normal" condition then 1
  else if strHas "flat" condition || strHas "pes planus" condition then
    if 21/100 ≤ ahi then 1
    else if 18/100 ≤ ahi then 2
    else if 15/100 ≤ ahi then 3
    else 4
  else if strHas "high" condition || strHas "pes cavus" condition then
    if ahi ≤ 34/100 then 1
    else if ahi ≤ 38/100 then 2
    else if ahi ≤ 42/100 then 3
    else 4
  else severityMapD severity

/-- Whether a `zone_alignment` entry is missing or an empty dict (both falsy
in `if not zone_specific`). -/
def zoneEmpty (z : Option ZoneInfo) : Bool :=
  match z with
  | none => true
  | some zi => zi.alignment.isNone && zi.zconfidence.isNone

/-- The gait fallback of `_determine_zone_alignment`: for the hindfoot only,
a signed `rearfoot_angle` below -2 means varus and above 2 means valgus. -/
def gaitFallback (zone : String) (gaitR : ModelRecord) : String :=
  if zone = "hindfoot" then
    match gaitR.rearfootAngle with
    | some angle =>
      if angle < -2 then "varus"
      else if 2 < angle then "valgus"
      else "neutral"
    | none => "neutral"
  else "neutral"

/-- `_determine_zone_alignment(zone, alignment_result, gait_result)`: use the
pronation model's per-zone data when its confidence is at least 0.6; with no
per-zone data, infer from an overall "pronation"/"supination" condition; then
fall back to the gait rearfoot angle, and finally to "neutral". -/
def determineZoneAlignment (zone : String) (alignR gaitR : ModelRecord) :
    String :=
  let zspec := alistGet alignR.zoneAlignment zone
  if zoneEmpty zspec then
    let condition := strLower (alignR.condition.getD "")
    if strHas "pronation" condition ∧ (zone = "hindfoot" ∨ zone = "midfoot") then
      "valgus"
    else if strHas "pronation" condition ∧ zone = "forefoot" then
      "varus"
    else if strHas "supination" condition ∧ (zone = "hindfoot" ∨ zone = "midfoot") then
      "varus"
    else if strHas "supination" condition ∧ zone = "forefoot" then
      "valgus"
    else gaitFallback zone gaitR
  else
    let zi := zspec.getD ⟨none, none⟩
    if 3/5 ≤ zi.zconfidence.getD (1/2) then zi.alignment.getD "neutral"
    else gaitFallback zone gaitR

/-- One step of the primary-diagnosis scan of `analyze_foot_images`: update
the running (diagnosis, confidence) pair when a result has strictly larger
confidence, a condition name without "normal", and a severity other than
"none". -/
def primaryStep (acc : Option String × ℚ) (p : String × ModelRecord) :
    Option String × ℚ :=
  let r := p.2
  if acc.2 < r.confidence.getD 0 then
    let cn := r.conditionName.getD ""
    if ¬ (strHas "normal" (strLower cn) = true) ∧ r.severity.getD "none" ≠ "none" then
      (some cn, r.confidence.getD 0)
    else acc
  else acc

/-- The primary-diagnosis scan of `analyze_foot_images` over the model results
in registration order. -/
def primaryScan (models : List (String × ModelRecord)) : Option String × ℚ :=
  models.foldl primaryStep (none, 0)

/-- One step of the pathology collection loop of `analyze_foot_images`: keep
condition names that are non-empty, not "normal", with severity other than
"none" and confidence at least 0.6. -/
def pathologyStep (acc : List String) (p : String × ModelRecord) :
    List String :=
  let r := p.2
  let cn := r.conditionName.getD ""
  if cn ≠ "" ∧ ¬ (strHas "normal" (strLower cn) = true) ∧
      r.severity.getD "none" ≠ "none" ∧ 3/5 ≤ r.confidence.getD 0 then
    acc ++ [cn]
  else acc

/-- The pathology collection loop of `analyze_foot_images`, in registration
order. -/
def collectPathologies (models : List (String × ModelRecord)) : List String :=
  models.foldl pathologyStep []

/-- The `structured_diagnosis` record built by `analyze_foot_images`. -/
structure StructuredDiagnosis where
  archType : String
  archDegree : ℤ
  forefoot : String
  midfoot : String
  hindfoot : String
  pathologies : List String
deriving DecidableEq, Repr

/-- The parts of the server-format result of `analyze_foot_images` that the
claims are about: the legacy `diagnosis`/`confidence` pair and the
`structured_diagnosis`. -/
structure ServerDiagnosis where
  diagnosis : String
  confidence : ℚ
  structured : StructuredDiagnosis
deriving DecidableEq, Repr

/-- The aggregation core of `FootDiagnosisModel.analyze_foot_images`, as a
function of the per-model result records in registration order (`arch_type`,
`pronation`, `pressure`, `deformity`, `gait`, `footwear`,
`advanced_measurements`): primary-diagnosis scan with arch-type fallback,
arch type/degree mapping, three-zone alignment, and pathology collection. -/
def aggregateDiagnosis (models : List (String × ModelRecord)) :
    ServerDiagnosis :=
  let scan := primaryScan models
  let archR := (alistGet models "arch_type").getD errorRecord
  let legacy :=
    match scan.1 with
    | some d =>
      if d ≠ "" then (d, scan.2)
      else (archR.conditionName.getD "Normal Foot Structure",
            archR.confidence.getD (9/10))
    | none => (archR.conditionName.getD "Normal Foot Structure",
               archR.confidence.getD (9/10))
  let pronR := (alistGet models "pronation").getD errorRecord
  let gaitR := (alistGet models "gait").getD errorRecord
  { diagnosis := legacy.1
    confidence := legacy.2
    structured :=
      { archType := mapArchTypeToPdf (archR.condition.getD "normal_arch")
        archDegree := determineArchDegree archR
        forefoot := determineZoneAlignment "forefoot" pronR gaitR
        midfoot := determineZoneAlignment "midfoot" pronR gaitR
        hindfoot := determineZoneAlignment "hindfoot" pronR gaitR
        pathologies := collectPathologies models } }

/-- The registration-order model identifiers. -/
def registrationOrder : List String :=
  ["arch_type", "pronation", "pressure", "deformity", "gait", "footwear",
   "advanced_measurements"]

/-- All seven registered models returning the normalizer's error record. -/
def allErrorModels : List (String × ModelRecord) :=
  registrationOrder.map (fun id => (id, errorRecord))

/-! ## ModelResult normalizer (`base_model.BaseFootModel.analyze`) -/

/-- An entry of the `images` list as seen by `_validate_inputs`: a `None`
entry, a non-`ndarray` value, or an array with a shape. -/
inductive Img where
  | isNone
  | notArray
  | array (shape : List ℕ)
deriving DecidableEq, Repr

/-- The fields of a successful module result that `_post_process_results`
inspects for defaults (further payload fields pass through unchanged and are
not modelled). -/
structure RawResult where
  modelName : Option String
  confidence : Option ℚ
deriving DecidableEq, Repr

/-- The outcome of running `_analyze_implementation` (the module body): a
result dict (or Python `None`), or an exception of one of the three classes
distinguished by `analyze`'s handlers. -/
inductive BodyOutcome where
  | ok (result : Option RawResult)
  | raiseValidation (msg : String)
  | raiseModel (msg : String)
  | raiseOther (msg : String)
deriving DecidableEq, Repr

/-- The `error` sub-dict of `_create_error_response`. -/
structure ErrorInfo where
  etype : String
  message : String
  modelName : String
deriving DecidableEq, Repr

/-- The record returned by `analyze`: on success the processed result (no
`error` or `success` key), on failure the `_create_error_response` record
(`error` sub-dict and `success: False`). -/
structure AnalyzeOutput where
  errorInfo : Option ErrorInfo
  success : Option Bool
  modelName : String
  confidence : Option ℚ
deriving DecidableEq, Repr

/-- `_create_error_response(error_type, error_message)` (the execution-time,
timestamp and traceback metadata fields are not modelled). -/
def errResponse (name etype msg : String) : AnalyzeOutput :=
  ⟨some ⟨etype, msg, name⟩, some false, name, none⟩

/-- The per-image checks of `_validate_inputs`, with the running index. -/
def firstImageError (i : ℕ) : List Img → Option String
  | [] => none
  | Img.isNone :: _ =>
      some ("Image at index " ++ toString i ++ " is None")
  | Img.notArray :: _ =>
      some ("Image at index " ++ toString i ++ " is not a numpy array")
  | Img.array shape :: t =>
      if shape.length < 2 then
        some ("Image at index " ++ toString i ++ " has invalid dimensions")
      else firstImageError (i + 1) t

/-- `_validate_inputs(images, measurements)`: empty/missing images, missing
measurements, then the per-image checks; returns the first failure message. -/
def validateInputs (images : List Img)
    (meas : Option (List (String × ℚ))) : Option String :=
  if images.isEmpty then some "No images provided"
  else if meas.isNone then some "No measurements provided"
  else firstImageError 0 images

/-- `BaseFootModel.analyze(images, measurements)` with the module body's
outcome made explicit: validation and the body run inside one `try`, and each
handler converts its exception class into an error response; a successful
result gets `model_name` and `confidence` defaults from
`_post_process_results` (a `None` result becomes an empty dict first). -/
def analyzeModel (name : String) (images : List Img)
    (meas : Option (List (String × ℚ))) (body : BodyOutcome) : AnalyzeOutput :=
  match validateInputs images meas with
  | some msg => errResponse name "validation_error" msg
  | none =>
    match body with
    | BodyOutcome.ok r =>
      let rr := r.getD ⟨none, none⟩
      ⟨none, none, rr.modelName.getD name, some (rr.confidence.getD (4/5))⟩
    | BodyOutcome.raiseValidation m => errResponse name "validation_error" m
    | BodyOutcome.raiseModel m => errResponse name "model_error" m
    | BodyOutcome.raiseOther m => errResponse name "unexpected_error" m

/-! ## Concrete inputs used by the claim theorems -/

/-- Modelled from the spec claim wording (for comparison with the code's
`boostConfidence`): agreement computed as the count of results whose raw
classification equals the *winning category*, divided by the count of results;
then the same staircase and re-clamp. -/
def specWinnerAgreementBoost (cls : List (String × MethodRes))
    (winner : String) (base : ℚ) : ℚ :=
  let total : ℕ := cls.length
  let k : ℕ := (cls.filter (fun p => p.2.classification = some winner)).length
  let agreement : ℚ := (k : ℚ) / (total : ℚ)
  let boost : ℚ := if 4/5 < agreement then 1/10
    else if 3/5 < agreement then 1/20 else 0
  min (19/20) (base + boost)

/-- Scenario D of the spec: the six arch methods at equal confidence 0.8,
four voting `flat_feet` and two voting `normal_arch`. -/
def scenarioD : List (String × MethodRes) :=
  [("arch_height_index", ⟨some "flat_feet", some (4/5)⟩),
   ("medial_arch_angle", ⟨some "flat_feet", some (4/5)⟩),
   ("chippaux_smirak_index", ⟨some "flat_feet", some (4/5)⟩),
   ("navicular_drop", ⟨some "flat_feet", some (4/5)⟩),
   ("arch_rigidity", ⟨some "normal_arch", some (4/5)⟩),
   ("dynamic_arch_response", ⟨some "normal_arch", some (4/5)⟩)]

/-- Three methods where the modal raw classification (`flat_feet`, 2 of 3)
differs from the weighted winner (`high_arch`, which carries almost all the
weight). -/
def mixedMethods : List (String × MethodRes) :=
  [("m1", ⟨some "flat_feet", some (3/5)⟩),
   ("m2", ⟨some "flat_feet", some (3/5)⟩),
   ("m3", ⟨some "high_arch", some (9/10)⟩)]

/-- Weights for `mixedMethods` concentrating the weight on `m3`. -/
def mixedWeights : List (String × ℚ) :=
  [("m1", 1/20), ("m2", 1/20), ("m3", 1)]

/-- An all-neutral alignment argument. -/
def neutralAlignment : Alignment :=
  ⟨"neutral", "neutral", "neutral"⟩

/-- The patient context of spec Scenario C:
`medical_history = ["diabetes", "peripheral neuropathy"]`. -/
def scenarioCContext : PatientContext :=
  ⟨["diabetes", "peripheral neuropathy"], false, false, false⟩

/-- A patient context whose history contains the exact entries
`"diabetes"` and `"neuropathy"`. -/
def diabNeuroContext : PatientContext :=
  ⟨["diabetes", "neuropathy"], false, false, false⟩

/-- An arch-model result with an unmapped condition code and severe severity. -/
def unknownSevereRecord : ModelRecord :=
  { errorRecord with condition := some "unknown", severity := some "severe" }

/-- A flat-feet arch result carrying a severe severity but no
`arch_height_index` measurement. -/
def flatSevereNoAhi : ModelRecord :=
  { errorRecord with condition := some "flat_feet", severity := some "severe" }

/-- A flat-feet arch result with `arch_height_index = 0.16`. -/
def flatAhi16 : ModelRecord :=
  { errorRecord with
    condition := some "flat_feet"
    archMeasurements := [("arch_height_index", 16/100)] }

/-- An arch result with the mapped normal condition code. -/
def normalArchRecord : ModelRecord :=
  { errorRecord with condition := some "normal_arch" }

/-! ## Structural lemmas about the recommendation accumulator -/

/-- The bookkeeping invariant of the `recommendations` structure: the combined
list splits into the two category lists, every combined entry is in one of the
category lists, and the confidence-score keys are exactly the combined names. -/
def recInvariant (s : RecState) : Prop :=
  s.combined.length = s.intrinsic.length + s.extrinsic.length ∧
  (∀ x, x ∈ s.combined → x ∈ s.intrinsic ∨ x ∈ s.extrinsic) ∧
  (∀ n, n ∈ s.scores.map Prod.fst ↔ n ∈ s.combined)

theorem alistSet_keys {α : Type} (l : List (String × α)) (k : String) (v : α)
    (n : String) :
    n ∈ (alistSet l k v).map Prod.fst ↔ n ∈ l.map Prod.fst ∨ n = k := by
  induction l with
  | nil => simp [alistSet]
  | cons p t ih =>
    obtain ⟨k', v'⟩ := p
    by_cases hk : k' = k
    · subst hk
      simp only [alistSet, if_true, eq_self_iff_true, List.map_cons,
        List.mem_cons, if_pos]
      tauto
    · simp only [alistSet, if_neg hk, List.map_cons, List.mem_cons, ih]
      tauto

theorem addRec_invariant (s : RecState) (name : String) (cat : Cat) (conf : ℚ)
    (primary : Bool) (h : recInvariant s) :
    recInvariant (addRec s name cat conf primary) := by
  obtain ⟨h1, h2, h3⟩ := h
  unfold addRec
  by_cases hm : name ∈ s.catList cat
  · simpa [hm] using ⟨h1, h2, h3⟩
  · rw [if_neg hm]
    refine ⟨?_, ?_, ?_⟩
    · cases cat <;> simp [h1] <;> omega
    · intro x hx
      rcases List.mem_append.mp hx with hx | hx
      · rcases h2 x hx with hx' | hx' <;> cases cat <;>
          simp [List.mem_append, hx']
      · have hx' : x = name := by simpa using hx
        subst hx'
        cases cat <;> simp
    · intro n
      rw [alistSet_keys, List.mem_append, h3]
      simp

theorem addAll_invariant (reqs : List AddReq) (s : RecState)
    (h : recInvariant s) : recInvariant (addAll s reqs) := by
  induction reqs generalizing s with
  | nil => simpa [addAll] using h
  | cons r t ih =>
    have : addAll s (r :: t) = addAll (addRec s r.name r.cat r.conf r.primary) t := rfl
    rw [this]
    exact ih _ (addRec_invariant _ _ _ _ _ h)

theorem emptyRec_invariant : recInvariant emptyRec := by
  refine ⟨rfl, ?_, ?_⟩ <;> simp [emptyRec]

/-! ## Lemmas about aggregation over all-error model results -/

theorem primaryStep_error (acc : Option String × ℚ) (id : String)
    (hacc : 0 ≤ acc.2) : primaryStep acc (id, errorRecord) = acc := by
  simp [primaryStep, errorRecord, not_lt.mpr hacc]

theorem primaryScan_allError (models : List (String × ModelRecord))
    (h : ∀ p ∈ models, p.2 = errorRecord) : primaryScan models = (none, 0) := by
  suffices key : ∀ (l : List (String × ModelRecord)) (acc : Option String × ℚ),
      (∀ p ∈ l, p.2 = errorRecord) → 0 ≤ acc.2 → l.foldl primaryStep acc = acc by
    exact key models (none, 0) h le_rfl
  intro l
  induction l with
  | nil => intro acc _ _; rfl
  | cons p t ih =>
    intro acc hl hacc
    obtain ⟨id, r⟩ := p
    have hr : r = errorRecord := hl (id, r) (List.mem_cons_self _ _)
    subst hr
    rw [List.foldl_cons, primaryStep_error acc id hacc]
    exact ih acc (fun q hq => hl q (List.mem_cons_of_mem _ hq)) hacc

theorem pathologyStep_error (acc : List String) (id : String) :
    pathologyStep acc (id, errorRecord) = acc := by
  simp [pathologyStep, errorRecord]

theorem collectPathologies_allError (models : List (String × ModelRecord))
    (h : ∀ p ∈ models, p.2 = errorRecord) : collectPathologies models = [] := by
  suffices key : ∀ (l : List (String × ModelRecord)) (acc : List String),
      (∀ p ∈ l, p.2 = errorRecord) → l.foldl pathologyStep acc = acc by
    exact key models [] h
  intro l
  induction l with
  | nil => intro acc _; rfl
  | cons p t ih =>
    intro acc hl
    obtain ⟨id, r⟩ := p
    have hr : r = errorRecord := hl (id, r) (List.mem_cons_self _ _)
    subst hr
    rw [List.foldl_cons, pathologyStep_error acc id]
    exact ih acc (fun q hq => hl q (List.mem_cons_of_mem _ hq))

theorem alistGet_allError (models : List (String × ModelRecord))
    (h : ∀ p ∈ models, p.2 = errorRecord) (k : String) :
    (alistGet models k).getD errorRecord = errorRecord := by
  induction models with
  | nil => rfl
  | cons p t ih =>
    obtain ⟨id, r⟩ := p
    have hr : r = errorRecord := h (id, r) (List.mem_cons_self _ _)
    subst hr
    by_cases hk : id = k
    · simp [alistGet, hk]
    · simpa [alistGet, hk] using ih (fun q hq => h q (List.mem_cons_of_mem _ hq))

/-! ## Lemmas about the "normal" arch mapping -/

theorem mapArchTypeToPdf_normal (s : String)
    (h : strHas "normal" (strLower s) = true) :
    mapArchTypeToPdf s = "Normal Arch" := by
  unfold mapArchTypeToPdf
  dsimp only
  split_ifs with h1 h2 h3 h4 h5 h6 <;> try rfl
  · rw [h1] at h; exact absurd h (by decide)
  · rw [h2] at h; exact absurd h (by decide)
  · rw [h4] at h; exact absurd h (by decide)
  · rw [h5] at h; exact absurd h (by decide)

theorem determineArchDegree_normal (r : ModelRecord)
    (h : strHas "normal" (strLower (r.condition.getD "normal_arch")) = true) :
    determineArchDegree r = 1 := by
  simp [determineArchDegree, h]

/-! ## Bounds of the ensemble confidence and boost -/

theorem boostConfidence_bounds (cls : List (String × MethodRes)) (base : ℚ)
    (hlo : 3/5 ≤ base) (hhi : base ≤ 19/20) :
    3/5 ≤ boostConfidence cls base ∧ boostConfidence cls base ≤ 19/20 := by
  unfold boostConfidence
  cases hmode : modeOf cls with
  | none => exact ⟨hlo, hhi⟩
  | some m =>
    obtain ⟨c, k⟩ := m
    constructor
    · refine le_min (by norm_num) ?_
      have hb : (0 : ℚ) ≤
          (if 4/5 < (k : ℚ) / ((classifiedOf cls).length : ℚ) then 1/10
           else if 3/5 < (k : ℚ) / ((classifiedOf cls).length : ℚ) then 1/20
           else 0) := by
        split_ifs <;> norm_num
      linarith
    · exact min_le_left _ _

/-! ## Claim theorems -/

/-- C1 (counterexample): with every registered model returning the
normalizer's error record, the aggregator's legacy confidence is 0.9 — not
the 0.70 of the claimed static fallback (which only the outer exception
handler produces). -/
theorem c1_counterexample :
    (aggregateDiagnosis allErrorModels).confidence = 9/10 ∧
    ((9 : ℚ)/10 ≠ 7/10) := by
  with_unfolding_all decide

/-- C1 (amended): the aggregator is a total function, and when every model
returned an error record its output is legacy diagnosis "Normal Foot
Structure" with confidence 0.9 (the arch-model fallback default of
`analyze_foot_images`), together with the empty StructuredDiagnosis (Normal
Arch, degree 1, all zones neutral, no pathologies). -/
theorem c1_all_error_fallback (models : List (String × ModelRecord))
    (h : ∀ p ∈ models, p.2 = errorRecord) :
    aggregateDiagnosis models =
      ⟨"Normal Foot Structure", 9/10,
       ⟨"Normal Arch", 1, "neutral", "neutral", "neutral", []⟩⟩ := by
  have hscan := primaryScan_allError models h
  have harch := alistGet_allError models h "arch_type"
  have hpron := alistGet_allError models h "pronation"
  have hgait := alistGet_allError models h "gait"
  have hcol := collectPathologies_allError models h
  simp only [aggregateDiagnosis, hscan, harch, hpron, hgait, hcol]
  with_unfolding_all decide

/-- C1 (witness): the amended statement evaluated at the seven registered
models all erroring. -/
theorem c1_witness :
    aggregateDiagnosis allErrorModels =
      ⟨"Normal Foot Structure", 9/10,
       ⟨"Normal Arch", 1, "neutral", "neutral", "neutral", []⟩⟩ :=
  c1_all_error_fallback allErrorModels (by decide)

/-- C2 (counterexample): the boost is not computed from agreement with the
winning category: with `mixedMethods`/`mixedWeights` the weighted winner is
`high_arch` (agreement 1/3 with the winner, so the claim predicts no boost),
but the code's boost — driven by the modal classification `flat_feet`, 2/3 —
changes the confidence. -/
theorem c2_counterexample :
    (determineOverallArchType mixedMethods mixedWeights).1 = "high_arch" ∧
    boostConfidence mixedMethods
        (determineOverallArchType mixedMethods mixedWeights).2 ≠
      specWinnerAgreementBoost mixedMethods
        (determineOverallArchType mixedMethods mixedWeights).1
        (determineOverallArchType mixedMethods mixedWeights).2 := by
  with_unfolding_all decide

/-- C2 (amended): the agreement boost is computed from the most common raw
classification among the method results (not from the weighted winner); in
Scenario D with the six arch methods at equal confidence 0.8 voting
flat_feet:4 / normal_arch:2, the winner is `flat_feet` with base confidence
0.6, the mode agreement is 2/3, and a +0.05 boost is applied. -/
theorem c2_mode_agreement_boost :
    determineOverallArchType scenarioD archMethodWeights = ("flat_feet", 3/5) ∧
    modeAgreement scenarioD = 2/3 ∧
    boostConfidence scenarioD (3/5) = 3/5 + 1/20 := by
  with_unfolding_all decide

/-- C3 (counterexample): an unmapped condition code ("unknown") with severe
severity yields arch_type "Normal Arch" (the mapping default) but arch_degree
4 (the severity fallback), refuting Normal Arch ⇒ degree 1. -/
theorem c3_counterexample :
    (aggregateDiagnosis [("arch_type", unknownSevereRecord)]).structured.archType
        = "Normal Arch" ∧
    (aggregateDiagnosis [("arch_type", unknownSevereRecord)]).structured.archDegree
        = 4 ∧
    ((4 : ℤ) ≠ 1) := by
  with_unfolding_all decide

/-- C3 (amended): whenever the arch result's condition code contains "normal"
(case-insensitive) — which covers every explicitly mapped Normal code — the
StructuredDiagnosis has arch_type "Normal Arch" and arch_degree 1; the
implication fails only for unmapped codes, which default to "Normal Arch"
while the degree falls back to the severity map. -/
theorem c3_normal_condition_degree (models : List (String × ModelRecord))
    (h : strHas "normal" (strLower
      ((((alistGet models "arch_type").getD errorRecord).condition).getD
        "normal_arch")) = true) :
    (aggregateDiagnosis models).structured.archType = "Normal Arch" ∧
    (aggregateDiagnosis models).structured.archDegree = 1 := by
  constructor
  · exact mapArchTypeToPdf_normal _ h
  · exact determineArchDegree_normal _ h

/-- C3 (witness): the amended statement at the mapped code "normal_arch". -/
theorem c3_witness :
    (aggregateDiagnosis [("arch_type", normalArchRecord)]).structured.archType
        = "Normal Arch" ∧
    (aggregateDiagnosis [("arch_type", normalArchRecord)]).structured.archDegree
        = 1 :=
  c3_normal_condition_degree [("arch_type", normalArchRecord)] (by decide)

/-- C4 (counterexample): a second `add` of the same name under a different
category passes the per-category guard and overwrites the recorded
confidence: after add("X", intrinsic, 0.9, primary) then
add("X", extrinsic, 0.5, secondary), confidence_scores["X"] is 0.5, not the
first-written 0.9. -/
theorem c4_counterexample :
    alistGet (addRec (addRec emptyRec "X" Cat.intrinsic (9/10) true)
        "X" Cat.extrinsic (1/2) false).scores "X" = some (1/2) ∧
    ((1/2 : ℚ) ≠ 9/10) := by
  with_unfolding_all decide

/-- C4 (amended): first write wins only per category: a later `add` for a
name already present in the given category's list is a complete no-op (so the
claimed same-category instance holds: after add("X", intrinsic, 0.9, primary)
then add("X", intrinsic, 0.5, secondary), confidence_scores["X"] is 0.9 and
"X" is only under primary); but a first add under a second category overwrites
the recorded confidence. -/
theorem c4_first_write_per_category :
    (∀ (s : RecState) (n : String) (c : Cat) (q : ℚ) (p : Bool),
       n ∈ s.catList c → addRec s n c q p = s) ∧
    alistGet (addRec (addRec emptyRec "X" Cat.intrinsic (9/10) true)
        "X" Cat.intrinsic (1/2) false).scores "X" = some (9/10) ∧
    (addRec (addRec emptyRec "X" Cat.intrinsic (9/10) true)
        "X" Cat.intrinsic (1/2) false).primaryRecs = ["X"] ∧
    (addRec (addRec emptyRec "X" Cat.intrinsic (9/10) true)
        "X" Cat.intrinsic (1/2) false).secondaryRecs = [] := by
  refine ⟨fun s n c q p h => by simp [addRec, h], ?_⟩
  with_unfolding_all decide

/-- C4 (witness): the no-op clause of the amended statement applied to the
two-call same-category scenario. -/
theorem c4_witness :
    addRec (addRec emptyRec "X" Cat.intrinsic (9/10) true)
        "X" Cat.intrinsic (1/2) false =
      addRec emptyRec "X" Cat.intrinsic (9/10) true :=
  c4_first_write_per_category.1 _ "X" Cat.intrinsic (1/2) false
    (by with_unfolding_all decide)

/-- C5 (counterexample): with medical_history =
["diabetes", "peripheral neuropathy"], the exact-membership check
`"neuropathy" in [x.lower() ...]` fails, so no high_risk_foot flag is set and
the intrinsic list does not contain "Total Contact Orthotic". -/
theorem c5_counterexample :
    alistGet (applyMedicalRules "Normal Arch" 1 neutralAlignment []
        (some scenarioCContext)).flags "high_risk_foot" = none ∧
    "Total Contact Orthotic" ∉
      (applyMedicalRules "Normal Arch" 1 neutralAlignment []
        (some scenarioCContext)).recs.intrinsic := by
  with_unfolding_all decide

/-- C5 (amended): when the lower-cased medical history contains the exact
entries "diabetes" and "neuropathy", the engine sets flags.high_risk_foot and
the intrinsic list contains "Total Contact Orthotic"; an entry such as
"peripheral neuropathy" does not match, because the history check is exact
list membership. -/
theorem c5_exact_history :
    alistGet (applyMedicalRules "Normal Arch" 1 neutralAlignment []
        (some diabNeuroContext)).flags "high_risk_foot" = some true ∧
    "Total Contact Orthotic" ∈
      (applyMedicalRules "Normal Arch" 1 neutralAlignment []
        (some diabNeuroContext)).recs.intrinsic := by
  with_unfolding_all decide

/-- C6 (counterexample): a flat-feet result with severe severity but no
arch_height_index measurement gets degree 1 (the measurement defaults to
0.25 ≥ 0.21), not the severity-map value 4 the claim requires. -/
theorem c6_counterexample :
    determineArchDegree flatSevereNoAhi = 1 ∧ severityMapD "severe" = 4 ∧
    ((1 : ℤ) ≠ 4) := by
  with_unfolding_all decide

/-- C6 (amended): for a non-"normal" condition, the flat and high threshold
tables are as claimed, but they are evaluated with arch_height_index
defaulting to 0.25 when the measurement is absent (so an absent measurement
gives a flat condition degree 1); the severity map {none:1, mild:2,
moderate:3, severe:4} applies only when the condition is neither flat nor
high. -/
theorem c6_threshold_table (r : ModelRecord)
    (hn : strHas "normal" (strLower (r.condition.getD "normal_arch")) = false) :
    ((strHas "flat" (strLower (r.condition.getD "normal_arch")) ||
      strHas "pes planus" (strLower (r.condition.getD "normal_arch"))) = true →
      determineArchDegree r =
        if 21/100 ≤ (alistGet r.archMeasurements "arch_height_index").getD (25/100) then 1
        else if 18/100 ≤ (alistGet r.archMeasurements "arch_height_index").getD (25/100) then 2
        else if 15/100 ≤ (alistGet r.archMeasurements "arch_height_index").getD (25/100) then 3
        else 4) ∧
    ((strHas "flat" (strLower (r.condition.getD "normal_arch")) ||
      strHas "pes planus" (strLower (r.condition.getD "normal_arch"))) = false →
     (strHas "high" (strLower (r.condition.getD "normal_arch")) ||
      strHas "pes cavus" (strLower (r.condition.getD "normal_arch"))) = true →
      determineArchDegree r =
        if (alistGet r.archMeasurements "arch_height_index").getD (25/100) ≤ 34/100 then 1
        else if (alistGet r.archMeasurements "arch_height_index").getD (25/100) ≤ 38/100 then 2
        else if (alistGet r.archMeasurements "arch_height_index").getD (25/100) ≤ 42/100 then 3
        else 4) ∧
    ((strHas "flat" (strLower (r.condition.getD "normal_arch")) ||
      strHas "pes planus" (strLower (r.condition.getD "normal_arch"))) = false →
     (strHas "high" (strLower (r.condition.getD "normal_arch")) ||
      strHas "pes cavus" (strLower (r.condition.getD "normal_arch"))) = false →
      determineArchDegree r = severityMapD (r.severity.getD "none")) ∧
    (alistGet r.archMeasurements "arch_height_index" = none →
     (strHas "flat" (strLower (r.condition.getD "normal_arch")) ||
      strHas "pes planus" (strLower (r.condition.getD "normal_arch"))) = true →
      determineArchDegree r = 1) := by
  refine ⟨?_, ?_, ?_, ?_⟩
  · intro hf
    simp [determineArchDegree, hn, hf]
  · intro hf hh
    simp [determineArchDegree, hn, hf, hh]
  · intro hf hh
    simp [determineArchDegree, hn, hf, hh]
  · intro hnone hf
    simp [determineArchDegree, hn, hf, hnone]
    norm_num

/-- C6 (witness): the flat threshold table at arch_height_index 0.16 gives
degree 3. -/
theorem c6_witness : determineArchDegree flatAhi16 = 3 := by
  have h := (c6_threshold_table flatAhi16 (by decide)).1 (by decide)
  rw [h]
  with_unfolding_all decide

/-- C7 (counterexample): on the empty result collection with the arch-model
weight table (total weight 1), the classifier returns the first category with
confidence 0.6 — the clamp of 0/1 — not 0.7. -/
theorem c7_counterexample :
    determineOverallArchType [] archMethodWeights = ("flat_feet", 3/5) ∧
    ((3 : ℚ)/5 ≠ 7/10) := by
  with_unfolding_all decide

/-- C7 (amended): on an empty result collection the classifier returns the
first declared category ("flat_feet"), with confidence 0.7 only when the
total weight is not positive; with positive total weight the confidence is
0/total clamped up to 0.6. -/
theorem c7_empty_results (weights : List (String × ℚ)) :
    determineOverallArchType [] weights =
      ("flat_feet", if 0 < weightTotal weights then 3/5 else 7/10) := by
  unfold determineOverallArchType voteCategories pickMaxQ voteFor
  dsimp only [List.map, List.foldl]
  by_cases h : 0 < weightTotal weights
  · simp [h, zero_div]
    norm_num
  · simp [h]
    norm_num

/-- C8: for any method results and any weight table, the ensemble confidence
after the base clamp lies in [0.6, 0.95], and it stays in [0.6, 0.95] after
the agreement boost. -/
theorem c8_confidence_bounds (cls : List (String × MethodRes))
    (weights : List (String × ℚ)) (hne : cls ≠ []) :
    3/5 ≤ (determineOverallArchType cls weights).2 ∧
    (determineOverallArchType cls weights).2 ≤ 19/20 ∧
    3/5 ≤ boostConfidence cls (determineOverallArchType cls weights).2 ∧
    boostConfidence cls (determineOverallArchType cls weights).2 ≤ 19/20 := by
  have hbase1 : 3/5 ≤ (determineOverallArchType cls weights).2 := by
    unfold determineOverallArchType
    exact le_max_left _ _
  have hbase2 : (determineOverallArchType cls weights).2 ≤ 19/20 := by
    unfold determineOverallArchType
    exact max_le (by norm_num) (min_le_left _ _)
  obtain ⟨hb1, hb2⟩ := boostConfidence_bounds cls _ hbase1 hbase2
  exact ⟨hbase1, hbase2, hb1, hb2⟩

/-- C8 (witness): the bounds at Scenario D with the arch weight table. -/
theorem c8_witness :
    3/5 ≤ (determineOverallArchType scenarioD archMethodWeights).2 ∧
    (determineOverallArchType scenarioD archMethodWeights).2 ≤ 19/20 ∧
    3/5 ≤ boostConfidence scenarioD
        (determineOverallArchType scenarioD archMethodWeights).2 ∧
    boostConfidence scenarioD
        (determineOverallArchType scenarioD archMethodWeights).2 ≤ 19/20 :=
  c8_confidence_bounds scenarioD archMethodWeights (by decide)

/-- C9: the normalizer is total — for every model name, image list,
measurement table and module-body outcome (including bodies that raise any of
the three exception classes), `analyze` returns either a success record (no
error field) or a structured error record carrying the model name and
`success = false`. -/
theorem c9_normalizer_total (name : String) (images : List Img)
    (meas : Option (List (String × ℚ))) (body : BodyOutcome) :
    ((analyzeModel name images meas body).errorInfo = none ∧
     (analyzeModel name images meas body).success = none) ∨
    (∃ e : ErrorInfo,
      (analyzeModel name images meas body).errorInfo = some e ∧
      e.modelName = name ∧
      (analyzeModel name images meas body).success = some false) := by
  unfold analyzeModel
  cases hv : validateInputs images meas with
  | some msg =>
    right
    exact ⟨⟨"validation_error", msg, name⟩, rfl, rfl, rfl⟩
  | none =>
    cases body with
    | ok r => left; exact ⟨rfl, rfl⟩
    | raiseValidation m =>
      right; exact ⟨⟨"validation_error", m, name⟩, rfl, rfl, rfl⟩
    | raiseModel m =>
      right; exact ⟨⟨"model_error", m, name⟩, rfl, rfl, rfl⟩
    | raiseOther m =>
      right; exact ⟨⟨"unexpected_error", m, name⟩, rfl, rfl, rfl⟩

/-- C10: after every run of the rule engine, the combined list has exactly
len(intrinsic) + len(extrinsic) entries, every combined entry is in intrinsic
or extrinsic, and the confidence-score keys are exactly the combined names. -/
theorem c10_recommendation_invariants (archType : String) (archDegree : ℤ)
    (alignment : Alignment) (pathologies : List String)
    (ctx : Option PatientContext) :
    recInvariant
      (applyMedicalRules archType archDegree alignment pathologies ctx).recs :=
  addAll_invariant _ _ emptyRec_invariant

/-- C10 (witness): the length equation of the invariant at a concrete run. -/
theorem c10_witness :
    (applyMedicalRules "Flat Arch" 4 neutralAlignment [] none).recs.combined.length =
      (applyMedicalRules "Flat Arch" 4 neutralAlignment [] none).recs.intrinsic.length +
      (applyMedicalRules "Flat Arch" 4 neutralAlignment [] none).recs.extrinsic.length :=
  (c10_recommendation_invariants "Flat Arch" 4 neutralAlignment [] none).1

end FootScan
